import Mathlib

/-!
# Verification of the flask_headless_payments webhook reconciliation core

Shallow embedding of the webhook reconciliation core of
`flask_headless_payments`:

* `SubscriptionMixin` predicates (`mixins/subscription.py`),
* the `WebhookEvent` audit record (`mixins/webhook.py`),
* `WebhookManager` (`managers/webhook_manager.py`): handler registry,
  event dispatch, default handlers and `process_event`,
* the `/webhook` HTTP route (`routes/payments.py`).

Timestamps (`datetime.utcnow()`) are modelled as `Nat` values passed in
explicitly.  SQLAlchemy sessions are modelled as explicit `DBState`
passing: a commit is the point where the new state is produced.  Python
exceptions raised by handlers are modelled with `Except String`; an
exception aborts the handler and discards its uncommitted effects.
-/

namespace FlaskPayments

/-- The event-specific payload, `event['data']['object']`.  A Stripe
subscription / checkout-session / invoice object, reduced to the keys the
reconciliation core reads.  Absent keys are `none` (`dict.get`). -/
structure EventData where
  obj_id : Option String := none
  customer : Option String := none
  subscription : Option String := none
  status : Option String := none
  plan_name : Option String := none
  current_period_start : Option Nat := none
  current_period_end : Option Nat := none
  cancel_at_period_end : Option Bool := none
  trial_start : Option Nat := none
  trial_end : Option Nat := none
  deriving Repr, DecidableEq

/-- A verified Stripe event envelope: `id`, `type`, `data.object`
(`verify_webhook` guarantees these keys exist on success). -/
structure StripeEvent where
  id : String
  event_type : String
  data : EventData
  deriving Repr, DecidableEq

/-- The user model with the columns injected by `SubscriptionMixin`
(`mixins/subscription.py`).  Nullable columns are `Option`. -/
structure User where
  user_id : Nat
  stripe_customer_id : Option String := none
  stripe_subscription_id : Option String := none
  plan_name : Option String := none
  plan_status : Option String := none
  current_period_start : Option Nat := none
  current_period_end : Option Nat := none
  cancel_at_period_end : Option Bool := none
  trial_start : Option Nat := none
  trial_end : Option Nat := none
  deriving Repr, DecidableEq

/-- A `WebhookEvent` row (`mixins/webhook.py`): autoincrement primary key
`row_id`, gateway event id, type, payload, processing outcome fields. -/
structure WebhookEvent where
  row_id : Nat
  stripe_event_id : String
  event_type : String
  data : EventData
  received_at : Nat
  processed : Bool := false
  processed_at : Option Nat := none
  error : Option String := none
  deriving Repr, DecidableEq

/-- The persisted database state: the user table and the WebhookEvent
table, plus the next autoincrement primary key for WebhookEvent rows. -/
structure DBState where
  users : List User
  webhook_events : List WebhookEvent
  next_pk : Nat
  deriving Repr, DecidableEq

/-- Well-formedness of a database state: every existing WebhookEvent row
has a primary key below the autoincrement counter, and user ids are
unique (primary-key uniqueness, enforced by the database). -/
def DBState.wf (db : DBState) : Prop :=
  (∀ w ∈ db.webhook_events, w.row_id < db.next_pk) ∧
    (db.users.map (fun u => u.user_id)).Nodup

instance (db : DBState) : Decidable db.wf := by
  unfold DBState.wf; infer_instance

/-- `user_model.query.filter_by(stripe_customer_id=customer_id).first()`:
first user whose `stripe_customer_id` equals the looked-up value
(`filter_by` with `None` matches a NULL column). -/
def find_user_by_customer (db : DBState) (cid : Option String) : Option User :=
  db.users.find? (fun u => u.stripe_customer_id == cid)

/-- Update the user row with primary key `uid` by `f`, leaving every
other row unchanged (an ORM attribute mutation followed by a commit). -/
def update_user (db : DBState) (uid : Nat) (f : User → User) : DBState :=
  { db with users := db.users.map (fun u => if u.user_id = uid then f u else u) }

/-- `db.session.add(webhook_event)` followed by `commit`: append a fresh
WebhookEvent row, assigning the autoincrement primary key. -/
def insert_event (db : DBState) (w : WebhookEvent) : DBState :=
  { db with
    webhook_events := db.webhook_events ++ [{ w with row_id := db.next_pk }]
    next_pk := db.next_pk + 1 }

/-- Mutate the WebhookEvent row with primary key `pk` by `f` and commit
(the ORM object mutated in `process_event` is identified by its primary
key). -/
def update_event (db : DBState) (pk : Nat) (f : WebhookEvent → WebhookEvent) : DBState :=
  { db with
    webhook_events := db.webhook_events.map (fun w => if w.row_id = pk then f w else w) }

/-- A handler body: takes the event payload and the database, and either
returns the new database state or raises an exception with a message
(Python handlers receive `(event_data, db, user_model)`). -/
def Handler : Type := EventData → DBState → Except String DBState

/-- `stripe.Subscription.retrieve`: an opaque remote call that returns a
subscription payload or raises. -/
def RetrieveFn : Type := String → Except String EventData

/-- The `event_handlers` registry of `WebhookManager`: at most one custom
handler per event-type string. -/
def Handlers : Type := String → Option Handler

/-- `WebhookManager.register_handler`: store `handler` under
`event_type`, replacing any previous registration. -/
def register_handler (event_type : String) (handler : Handler) (reg : Handlers) : Handlers :=
  fun t => if t = event_type then some handler else reg t

/-- Modelled from the spec: `SubscriptionManager.update_user_subscription`
(the subscription manager's source is not part of the reconciliation
core).  Per §4.4 it overwrites the user's plan name, plan status, current
period bounds, trial bounds and cancel-at-period-end flag with the
gateway subscription payload's authoritative values, then persists; it is
an atomic, idempotent upsert. -/
def update_user_subscription (uid : Nat) (sub : EventData) (db : DBState) : DBState :=
  update_user db uid (fun u =>
    { u with
      plan_name := sub.plan_name
      plan_status := sub.status
      current_period_start := sub.current_period_start
      current_period_end := sub.current_period_end
      cancel_at_period_end := sub.cancel_at_period_end
      trial_start := sub.trial_start
      trial_end := sub.trial_end })

/-- `WebhookManager._handle_checkout_completed`: if the session carries a
subscription id, retrieve the full subscription and, when a user matches
the session's customer id, apply `update_user_subscription`. -/
def handle_checkout_completed (retrieve : RetrieveFn) (session : EventData)
    (db : DBState) : Except String DBState :=
  match session.subscription with
  | none => Except.ok db
  | some sid =>
    match retrieve sid with
    | Except.error e => Except.error e
    | Except.ok sub =>
      match find_user_by_customer db session.customer with
      | none => Except.ok db
      | some u => Except.ok (update_user_subscription u.user_id sub db)

/-- `WebhookManager._handle_subscription_created`: look the user up by
the subscription's customer id; when found, apply
`update_user_subscription`, otherwise do nothing. -/
def handle_subscription_created (subscription : EventData)
    (db : DBState) : Except String DBState :=
  match find_user_by_customer db subscription.customer with
  | none => Except.ok db
  | some u => Except.ok (update_user_subscription u.user_id subscription db)

/-- `WebhookManager._handle_subscription_updated`: identical reconciling
effect to the created handler. -/
def handle_subscription_updated (subscription : EventData)
    (db : DBState) : Except String DBState :=
  match find_user_by_customer db subscription.customer with
  | none => Except.ok db
  | some u => Except.ok (update_user_subscription u.user_id subscription db)

/-- `WebhookManager._handle_subscription_deleted`: when a user matches
the subscription's customer id, set `plan_status` to `'canceled'` and
clear `stripe_subscription_id`, then commit. -/
def handle_subscription_deleted (subscription : EventData)
    (db : DBState) : Except String DBState :=
  match find_user_by_customer db subscription.customer with
  | none => Except.ok db
  | some u => Except.ok (update_user db u.user_id (fun v =>
      { v with plan_status := some "canceled", stripe_subscription_id := none }))

/-- `WebhookManager._handle_invoice_paid`: logs
`invoice['id']`; the subscript raises `KeyError` when the key is absent,
otherwise no state change. -/
def handle_invoice_paid (invoice : EventData) (db : DBState) : Except String DBState :=
  match invoice.obj_id with
  | none => Except.error "KeyError: id"
  | some _ => Except.ok db

/-- `WebhookManager._handle_invoice_failed`: logs
`invoice['id']`; the subscript raises `KeyError` when the key is absent,
otherwise no state change. -/
def handle_invoice_failed (invoice : EventData) (db : DBState) : Except String DBState :=
  match invoice.obj_id with
  | none => Except.error "KeyError: id"
  | some _ => Except.ok db

/-- `WebhookManager._handle_default_event`: the built-in dispatch table;
an unmatched type is logged and ignored. -/
def handle_default_event (retrieve : RetrieveFn) (event_type : String)
    (event_data : EventData) (db : DBState) : Except String DBState :=
  if event_type = "checkout.session.completed" then
    handle_checkout_completed retrieve event_data db
  else if event_type = "customer.subscription.created" then
    handle_subscription_created event_data db
  else if event_type = "customer.subscription.updated" then
    handle_subscription_updated event_data db
  else if event_type = "customer.subscription.deleted" then
    handle_subscription_deleted event_data db
  else if event_type = "invoice.payment_succeeded" then
    handle_invoice_paid event_data db
  else if event_type = "invoice.payment_failed" then
    handle_invoice_failed event_data db
  else
    Except.ok db

/-- The dispatch step inside `process_event` (lines 94-99): a registered
custom handler takes precedence, otherwise the default table runs. -/
def dispatch (handlers : Handlers) (retrieve : RetrieveFn) (event_type : String)
    (event_data : EventData) (db : DBState) : Except String DBState :=
  match handlers event_type with
  | some h => h event_data db
  | none => handle_default_event retrieve event_type event_data db

/-- The state committed by `process_event` before any handler runs: the
fresh WebhookEvent row (gateway event id, type, payload, received
timestamp, `processed=false`) appended to the store. -/
def received_state (now : Nat) (ev : StripeEvent) (db : DBState) : DBState :=
  insert_event db
    { row_id := 0
      stripe_event_id := ev.id
      event_type := ev.event_type
      data := ev.data
      received_at := now
      processed := false
      processed_at := none
      error := none }

/-- `WebhookManager.process_event`: persist the event row, dispatch to
the custom or default handler, then mark the row processed (success) or
record the exception message on it (failure).  `now` is the receipt
timestamp, `now2` the processing-completion timestamp.  Returns the
Python `bool` result together with the final database state. -/
def process_event (handlers : Handlers) (retrieve : RetrieveFn) (now now2 : Nat)
    (ev : StripeEvent) (db : DBState) : Bool × DBState :=
  let db1 := received_state now ev db
  match dispatch handlers retrieve ev.event_type ev.data db1 with
  | Except.ok db2 =>
    (true, update_event db2 db.next_pk (fun w =>
      { w with processed := true, processed_at := some now2 }))
  | Except.error e =>
    (false, update_event db1 db.next_pk (fun w => { w with error := some e }))

/-- `SubscriptionMixin.is_subscribed`: false when `plan_status` is falsy
(NULL or the empty string), otherwise membership in
`['active', 'trialing']`. -/
def is_subscribed (u : User) : Bool :=
  match u.plan_status with
  | none => false
  | some s => if s = "" then false else (s = "active" || s = "trialing")

/-- `SubscriptionMixin.is_on_trial`: false when `trial_end` is NULL,
otherwise `utcnow() < trial_end and plan_status == 'trialing'`. -/
def is_on_trial (now : Nat) (u : User) : Bool :=
  match u.trial_end with
  | none => false
  | some te => decide (now < te) && u.plan_status == some "trialing"

/-- Outcome of `stripe.Webhook.construct_event` (external library call):
a verified event envelope, a `ValueError` for a malformed payload, or a
`SignatureVerificationError`. -/
inductive ConstructResult where
  | ok (ev : StripeEvent)
  | valueError (msg : String)
  | sigError (msg : String)
  deriving Repr, DecidableEq

/-- `WebhookManager.verify_webhook`: return the constructed event, or
`None` on a `ValueError` (malformed payload) or a signature verification
error (both are logged, not raised). -/
def verify_webhook (construct : ConstructResult) : Option StripeEvent :=
  match construct with
  | ConstructResult.ok ev => some ev
  | ConstructResult.valueError _ => none
  | ConstructResult.sigError _ => none

/-- The `/webhook` route (`routes/payments.py`): 500 when the webhook
secret is falsy (unset or empty), 400 when verification yields no event
(no processing happens), otherwise run `process_event` and map its bool
result to 200 or 500.  Returns the HTTP status and the final database
state. -/
def webhook_route (secret : Option String) (construct : ConstructResult)
    (handlers : Handlers) (retrieve : RetrieveFn) (now now2 : Nat)
    (db : DBState) : Nat × DBState :=
  match secret with
  | none => (500, db)
  | some s =>
    if s = "" then (500, db)
    else
      match verify_webhook construct with
      | none => (400, db)
      | some ev =>
        let r := process_event handlers retrieve now now2 ev db
        (if r.1 then 200 else 500, r.2)

/-- Number of WebhookEvent rows recorded under a given gateway event id. -/
def count_rows (db : DBState) (eid : String) : Nat :=
  (db.webhook_events.filter (fun w => w.stripe_event_id = eid)).length

/-- The success/failure exclusivity invariant on a WebhookEvent row:
`processed` is true exactly when `processed_at` is set, and a row never
carries both `processed=true` and a non-null `error`. -/
def event_ok (w : WebhookEvent) : Prop :=
  (w.processed = true ↔ w.processed_at ≠ none) ∧
    ¬(w.processed = true ∧ w.error ≠ none)

instance (w : WebhookEvent) : Decidable (event_ok w) := by
  unfold event_ok; infer_instance

/-! ## Concrete fixtures used by witnesses and counterexamples -/

/-- An empty handler registry. -/
def noHandlers : Handlers := fun _ => none

/-- A remote-fetch stub that always raises (never reached in the
scenarios below). -/
def noRetrieve : RetrieveFn := fun _ => Except.error "offline"

/-- A sample user linked to gateway customer `cus_1` with an active
subscription. -/
def sampleUser : User :=
  { user_id := 1
    stripe_customer_id := some "cus_1"
    stripe_subscription_id := some "sub_1"
    plan_name := some "pro"
    plan_status := some "active"
    current_period_start := some 10
    current_period_end := some 40
    cancel_at_period_end := some false
    trial_start := some 1
    trial_end := some 9 }

/-- A sample database holding only `sampleUser` and no webhook events. -/
def sampleDB : DBState := { users := [sampleUser], webhook_events := [], next_pk := 0 }

/-- A `customer.subscription.deleted` event for `cus_1`. -/
def sampleEvent : StripeEvent :=
  { id := "evt_1"
    event_type := "customer.subscription.deleted"
    data := { obj_id := some "sub_1", customer := some "cus_1", status := some "canceled" } }

/-- A `customer.subscription.created` event whose customer id matches no
user of `sampleDB`. -/
def missEvent : StripeEvent :=
  { id := "evt_2"
    event_type := "customer.subscription.created"
    data := { obj_id := some "sub_2", customer := some "cus_404", status := some "active" } }

/-- A custom handler that leaves the database unchanged. -/
def okHandler : Handler := fun _ db => Except.ok db

/-- A custom handler that always raises. -/
def failHandler : Handler := fun _ _ => Except.error "boom"

/-- A registry with `failHandler` registered for
`customer.subscription.created`. -/
def failHandlers : Handlers :=
  register_handler "customer.subscription.created" failHandler noHandlers

/-- First delivery of `sampleEvent` to `sampleDB`. -/
def firstDelivery : Bool × DBState :=
  process_event noHandlers noRetrieve 5 6 sampleEvent sampleDB

/-- Second delivery of the very same event to the state left by the
first delivery. -/
def secondDelivery : Bool × DBState :=
  process_event noHandlers noRetrieve 7 8 sampleEvent firstDelivery.2

/-! ## Helper lemmas -/

/-- Updating a fresh primary key touches no row of a list whose ids all
differ from it. -/
theorem map_update_not_mem (l : List WebhookEvent) (pk : Nat)
    (f : WebhookEvent → WebhookEvent) (h : ∀ w ∈ l, w.row_id ≠ pk) :
    l.map (fun w => if w.row_id = pk then f w else w) = l := by
  induction l with
  | nil => rfl
  | cons a t ih =>
    simp only [List.map_cons]
    rw [if_neg (h a (List.mem_cons_self a t)),
      ih (fun w hw => h w (List.mem_cons_of_mem a hw))]

/-- The user lookup only reads the user table, which `received_state`
leaves unchanged. -/
theorem find_user_received_state (now : Nat) (ev : StripeEvent) (db : DBState)
    (c : Option String) :
    find_user_by_customer (received_state now ev db) c = find_user_by_customer db c := rfl

/-! ## C7 — entitlement predicate -/

/-- C7: for every user, `is_subscribed()` returns true if and only if
`plan_status` is `'active'` or `'trialing'`; for every other
`plan_status` (including unset) it returns false. -/
theorem is_subscribed_iff (u : User) :
    is_subscribed u = true ↔
      (u.plan_status = some "active" ∨ u.plan_status = some "trialing") := by
  unfold is_subscribed
  cases h : u.plan_status with
  | none => simp
  | some s =>
    by_cases hs : s = ""
    · subst hs; simp
    · simp [hs]

/-! ## C8 — trial predicate -/

/-- C8: for every user with `plan_status = 'trialing'` and a set
`trial_end`, `is_on_trial()` returns true exactly when the current time
is strictly before `trial_end`; it returns false when `trial_end` is
unset. -/
theorem is_on_trial_iff (now : Nat) (u : User)
    (hstat : u.plan_status = some "trialing") :
    (∀ te, u.trial_end = some te → (is_on_trial now u = true ↔ now < te)) ∧
      (u.trial_end = none → is_on_trial now u = false) := by
  unfold is_on_trial
  constructor
  · intro te hte
    rw [hte]
    simp [hstat]
  · intro hte
    rw [hte]

/-- A user in mid-trial: the predicate holds strictly before
`trial_end = 100` and fails at time 150. -/
def trialUser : User := { user_id := 2, plan_status := some "trialing", trial_end := some 100 }

/-- Witness for C8 at `trialUser`: on trial at time 50, not at 150. -/
theorem is_on_trial_iff_witness :
    is_on_trial 50 trialUser = true ∧ is_on_trial 150 trialUser = false := by
  have h1 := (is_on_trial_iff 50 trialUser rfl).1 100 rfl
  have h2 := (is_on_trial_iff 150 trialUser rfl).1 100 rfl
  refine ⟨h1.mpr (by decide), ?_⟩
  cases hb : is_on_trial 150 trialUser with
  | false => rfl
  | true => exact absurd (h2.mp hb) (by decide)

/-! ## C5 — custom handlers take precedence and re-registration replaces -/

/-- C5: when a custom handler is registered for an event type, dispatch
runs exactly that handler (the default table is never consulted) and
propagates its outcome or exception; re-registering a handler for the
same type replaces the prior one. -/
theorem dispatch_custom_precedence (handlers : Handlers) (retrieve : RetrieveFn)
    (t : String) (h : Handler) (hreg : handlers t = some h)
    (ed : EventData) (db : DBState) :
    dispatch handlers retrieve t ed db = h ed db ∧
      ∀ (h1 h2 : Handler) (reg : Handlers),
        register_handler t h2 (register_handler t h1 reg) t = some h2 := by
  constructor
  · unfold dispatch
    rw [hreg]
  · intro h1 h2 reg
    unfold register_handler
    simp

/-- Witness for C5: `okHandler` registered for
`customer.subscription.deleted` is the one invoked, and registering
`okHandler` over `failHandler` leaves `okHandler` in the registry. -/
theorem dispatch_custom_precedence_witness :
    dispatch (register_handler "customer.subscription.deleted" okHandler noHandlers)
        noRetrieve "customer.subscription.deleted" sampleEvent.data sampleDB =
      okHandler sampleEvent.data sampleDB ∧
    register_handler "customer.subscription.deleted" okHandler
        (register_handler "customer.subscription.deleted" failHandler noHandlers)
        "customer.subscription.deleted" = some okHandler := by
  have h := dispatch_custom_precedence
    (register_handler "customer.subscription.deleted" okHandler noHandlers)
    noRetrieve "customer.subscription.deleted" okHandler
    (by simp [register_handler]) sampleEvent.data sampleDB
  exact ⟨h.1, h.2 failHandler okHandler noHandlers⟩

/-! ## C9 — verification failure stops everything at the boundary -/

/-- C9: when the payload is malformed (`ValueError`) or the signature
does not verify, `verify_webhook` yields no event and the webhook route
answers 400 with the database unchanged — `process_event` is never
reached and no WebhookEvent row is created. -/
theorem verify_failure_no_processing (s msg : String) (hs : s ≠ "")
    (handlers : Handlers) (retrieve : RetrieveFn) (now now2 : Nat) (db : DBState) :
    verify_webhook (ConstructResult.valueError msg) = none ∧
    verify_webhook (ConstructResult.sigError msg) = none ∧
    webhook_route (some s) (ConstructResult.valueError msg)
        handlers retrieve now now2 db = (400, db) ∧
    webhook_route (some s) (ConstructResult.sigError msg)
        handlers retrieve now now2 db = (400, db) := by
  refine ⟨rfl, rfl, ?_, ?_⟩ <;> simp [webhook_route, verify_webhook, hs]

/-- Witness for C9: a concrete bad-signature delivery is answered with
400 and leaves `sampleDB` untouched. -/
theorem verify_failure_no_processing_witness :
    webhook_route (some "whsec_1") (ConstructResult.sigError "bad sig")
        noHandlers noRetrieve 5 6 sampleDB = (400, sampleDB) :=
  (verify_failure_no_processing "whsec_1" "bad sig" (by decide)
    noHandlers noRetrieve 5 6 sampleDB).2.2.2

/-! ## C6 — subscription deletion: effect and frame -/

/-- C6: when a user matches a `customer.subscription.deleted` event, the
handler sets that user's `plan_status` to `'canceled'` and clears
`stripe_subscription_id`, and every other field of every user row — in
particular the period and trial bounds — is left unchanged; rows of
other users are untouched. -/
theorem subscription_deleted_frame (ed : EventData) (db : DBState) (u : User)
    (hu : find_user_by_customer db ed.customer = some u) :
    ∃ db', handle_subscription_deleted ed db = Except.ok db' ∧
      db'.webhook_events = db.webhook_events ∧
      db'.users.length = db.users.length ∧
      ∀ i (hi : i < db.users.length) (hi' : i < db'.users.length),
        (db.users[i].user_id = u.user_id →
          db'.users[i].plan_status = some "canceled" ∧
          db'.users[i].stripe_subscription_id = none) ∧
        (db.users[i].user_id ≠ u.user_id → db'.users[i] = db.users[i]) ∧
        db'.users[i].user_id = db.users[i].user_id ∧
        db'.users[i].stripe_customer_id = db.users[i].stripe_customer_id ∧
        db'.users[i].plan_name = db.users[i].plan_name ∧
        db'.users[i].current_period_start = db.users[i].current_period_start ∧
        db'.users[i].current_period_end = db.users[i].current_period_end ∧
        db'.users[i].cancel_at_period_end = db.users[i].cancel_at_period_end ∧
        db'.users[i].trial_start = db.users[i].trial_start ∧
        db'.users[i].trial_end = db.users[i].trial_end := by
  unfold handle_subscription_deleted
  rw [hu]
  refine ⟨_, rfl, rfl, by simp [update_user], ?_⟩
  intro i hi hi'
  simp only [update_user, List.getElem_map]
  by_cases hid : db.users[i].user_id = u.user_id
  · simp [hid]
  · simp [hid]

/-- Witness for C6: deleting `sampleUser`'s subscription cancels the
plan, clears the subscription id and keeps the period and trial bounds. -/
theorem subscription_deleted_frame_witness :
    ∃ db', handle_subscription_deleted sampleEvent.data sampleDB = Except.ok db' ∧
      db'.users.length = sampleDB.users.length := by
  obtain ⟨db', h1, _, h3, _⟩ :=
    subscription_deleted_frame sampleEvent.data sampleDB sampleUser (by decide)
  exact ⟨db', h1, h3⟩

/-! ## C4 — the audit row is committed before any handler runs -/

/-- C4: for every event given to `process_event`, there is a committed
state `s` — the prior store plus the fresh WebhookEvent row carrying the
gateway event id, type, payload, receipt timestamp and
`processed=false` — such that the whole outcome of `process_event` is
determined by dispatching the handler (custom or default) on `s`: no
handler ever observes a state without the row. -/
theorem row_persisted_before_handler (handlers : Handlers) (retrieve : RetrieveFn)
    (now now2 : Nat) (ev : StripeEvent) (db : DBState) :
    ∃ s : DBState,
      s.webhook_events = db.webhook_events ++
        [{ row_id := db.next_pk
           stripe_event_id := ev.id
           event_type := ev.event_type
           data := ev.data
           received_at := now
           processed := false
           processed_at := none
           error := none }] ∧
      s.users = db.users ∧
      process_event handlers retrieve now now2 ev db =
        (match dispatch handlers retrieve ev.event_type ev.data s with
         | Except.ok db2 => (true, update_event db2 db.next_pk
             (fun w => { w with processed := true, processed_at := some now2 }))
         | Except.error e => (false, update_event s db.next_pk
             (fun w => { w with error := some e }))) :=
  ⟨received_state now ev db, rfl, rfl, rfl⟩

/-! ## C3 — handler failure leaves an unprocessed, errored row -/

/-- C3: when the dispatched handler (custom or default) raises, the
WebhookEvent row stays `processed=false` with `processed_at` unset and
its `error` field holds the exception message, the user table is the one
the handler never got to commit, and `process_event` returns failure. -/
theorem handler_failure_records_error (handlers : Handlers) (retrieve : RetrieveFn)
    (now now2 : Nat) (ev : StripeEvent) (db : DBState) (msg : String)
    (hwf : ∀ w ∈ db.webhook_events, w.row_id < db.next_pk)
    (hfail : dispatch handlers retrieve ev.event_type ev.data
      (received_state now ev db) = Except.error msg) :
    process_event handlers retrieve now now2 ev db =
      (false,
        { users := db.users
          webhook_events := db.webhook_events ++
            [{ row_id := db.next_pk
               stripe_event_id := ev.id
               event_type := ev.event_type
               data := ev.data
               received_at := now
               processed := false
               processed_at := none
               error := some msg }]
          next_pk := db.next_pk + 1 }) := by
  have hne : ∀ w ∈ db.webhook_events, w.row_id ≠ db.next_pk :=
    fun w hw => Nat.ne_of_lt (hwf w hw)
  simp only [process_event]
  rw [hfail]
  simp only [update_event, received_state, insert_event, List.map_append,
    map_update_not_mem db.webhook_events db.next_pk _ hne, List.map_cons,
    List.map_nil, if_pos rfl, if_true]

/-- Witness for C3: the failing custom handler for
`customer.subscription.created` leaves one row with `processed=false` and
`error='boom'`, and the call returns failure. -/
theorem handler_failure_records_error_witness :
    (process_event failHandlers noRetrieve 5 6 missEvent sampleDB).1 = false ∧
    (process_event failHandlers noRetrieve 5 6 missEvent sampleDB).2.webhook_events =
      [{ row_id := 0
         stripe_event_id := "evt_2"
         event_type := "customer.subscription.created"
         data := missEvent.data
         received_at := 5
         processed := false
         processed_at := none
         error := some "boom" }] := by
  have h := handler_failure_records_error failHandlers noRetrieve 5 6 missEvent sampleDB
    "boom" (by decide)
    (by simp [dispatch, failHandlers, register_handler, failHandler, missEvent])
  rw [h]
  exact ⟨rfl, rfl⟩

/-! ## C2 — customer lookup miss is a successful no-op -/

/-- C2: for every subscription event (`customer.subscription.created` /
`updated` / `deleted`) handled by the default path whose customer id
matches no local user, `process_event` stores the WebhookEvent row,
marks it `processed=true` with a processing timestamp and no error,
mutates no user row, and returns success. -/
theorem lookup_miss_marks_processed (handlers : Handlers) (retrieve : RetrieveFn)
    (now now2 : Nat) (ev : StripeEvent) (db : DBState)
    (hwf : ∀ w ∈ db.webhook_events, w.row_id < db.next_pk)
    (hcustom : handlers ev.event_type = none)
    (htype : ev.event_type = "customer.subscription.created" ∨
      ev.event_type = "customer.subscription.updated" ∨
      ev.event_type = "customer.subscription.deleted")
    (hmiss : find_user_by_customer db ev.data.customer = none) :
    process_event handlers retrieve now now2 ev db =
      (true,
        { users := db.users
          webhook_events := db.webhook_events ++
            [{ row_id := db.next_pk
               stripe_event_id := ev.id
               event_type := ev.event_type
               data := ev.data
               received_at := now
               processed := true
               processed_at := some now2
               error := none }]
          next_pk := db.next_pk + 1 }) := by
  have hne : ∀ w ∈ db.webhook_events, w.row_id ≠ db.next_pk :=
    fun w hw => Nat.ne_of_lt (hwf w hw)
  have hmiss' : find_user_by_customer (received_state now ev db) ev.data.customer = none := by
    rw [find_user_received_state]; exact hmiss
  have hdisp : dispatch handlers retrieve ev.event_type ev.data (received_state now ev db) =
      Except.ok (received_state now ev db) := by
    unfold dispatch
    rw [hcustom]
    rcases htype with h | h | h <;> rw [h] <;>
      simp [handle_default_event, handle_subscription_created,
        handle_subscription_updated, handle_subscription_deleted, hmiss']
  simp only [process_event]
  rw [hdisp]
  simp only [update_event, received_state, insert_event, List.map_append,
    map_update_not_mem db.webhook_events db.next_pk _ hne, List.map_cons,
    List.map_nil, if_pos rfl, if_true]

/-- Witness for C2: delivering `missEvent` (customer `cus_404`, unknown)
to `sampleDB` returns success and leaves the user table unchanged. -/
theorem lookup_miss_marks_processed_witness :
    (process_event noHandlers noRetrieve 5 6 missEvent sampleDB).1 = true ∧
    (process_event noHandlers noRetrieve 5 6 missEvent sampleDB).2.users =
      sampleDB.users ∧
    (process_event noHandlers noRetrieve 5 6 missEvent sampleDB).2.webhook_events =
      [{ row_id := 0
         stripe_event_id := "evt_2"
         event_type := "customer.subscription.created"
         data := missEvent.data
         received_at := 5
         processed := true
         processed_at := some 6
         error := none }] := by
  have h := lookup_miss_marks_processed noHandlers noRetrieve 5 6 missEvent sampleDB
    (by decide) rfl (Or.inl rfl) (by decide)
  rw [h]
  exact ⟨rfl, rfl, rfl⟩

/-! ## Store-preservation lemmas for the default handlers -/

/-- A successful checkout handler run never touches the WebhookEvent
table or the primary-key counter. -/
theorem handle_checkout_completed_store_eq (retrieve : RetrieveFn) (ed : EventData)
    (db db2 : DBState) (h : handle_checkout_completed retrieve ed db = Except.ok db2) :
    db2.webhook_events = db.webhook_events ∧ db2.next_pk = db.next_pk := by
  unfold handle_checkout_completed at h
  split at h
  · cases h; exact ⟨rfl, rfl⟩
  · split at h
    · cases h
    · split at h
      · cases h; exact ⟨rfl, rfl⟩
      · cases h; exact ⟨rfl, rfl⟩

/-- A successful created handler run never touches the WebhookEvent
table or the primary-key counter. -/
theorem handle_subscription_created_store_eq (ed : EventData) (db db2 : DBState)
    (h : handle_subscription_created ed db = Except.ok db2) :
    db2.webhook_events = db.webhook_events ∧ db2.next_pk = db.next_pk := by
  unfold handle_subscription_created at h
  split at h
  · cases h; exact ⟨rfl, rfl⟩
  · cases h; exact ⟨rfl, rfl⟩

/-- A successful updated handler run never touches the WebhookEvent
table or the primary-key counter. -/
theorem handle_subscription_updated_store_eq (ed : EventData) (db db2 : DBState)
    (h : handle_subscription_updated ed db = Except.ok db2) :
    db2.webhook_events = db.webhook_events ∧ db2.next_pk = db.next_pk := by
  unfold handle_subscription_updated at h
  split at h
  · cases h; exact ⟨rfl, rfl⟩
  · cases h; exact ⟨rfl, rfl⟩

/-- A successful deleted handler run never touches the WebhookEvent
table or the primary-key counter. -/
theorem handle_subscription_deleted_store_eq (ed : EventData) (db db2 : DBState)
    (h : handle_subscription_deleted ed db = Except.ok db2) :
    db2.webhook_events = db.webhook_events ∧ db2.next_pk = db.next_pk := by
  unfold handle_subscription_deleted at h
  split at h
  · cases h; exact ⟨rfl, rfl⟩
  · cases h; exact ⟨rfl, rfl⟩

/-- A successful invoice-paid handler run never touches the database. -/
theorem handle_invoice_paid_store_eq (ed : EventData) (db db2 : DBState)
    (h : handle_invoice_paid ed db = Except.ok db2) :
    db2.webhook_events = db.webhook_events ∧ db2.next_pk = db.next_pk := by
  unfold handle_invoice_paid at h
  split at h
  · cases h
  · cases h; exact ⟨rfl, rfl⟩

/-- A successful invoice-failed handler run never touches the database. -/
theorem handle_invoice_failed_store_eq (ed : EventData) (db db2 : DBState)
    (h : handle_invoice_failed ed db = Except.ok db2) :
    db2.webhook_events = db.webhook_events ∧ db2.next_pk = db.next_pk := by
  unfold handle_invoice_failed at h
  split at h
  · cases h
  · cases h; exact ⟨rfl, rfl⟩

/-- No default handler ever touches the WebhookEvent table or the
primary-key counter: only the user table is mutated. -/
theorem handle_default_event_store_eq (retrieve : RetrieveFn) (t : String)
    (ed : EventData) (db db2 : DBState)
    (h : handle_default_event retrieve t ed db = Except.ok db2) :
    db2.webhook_events = db.webhook_events ∧ db2.next_pk = db.next_pk := by
  unfold handle_default_event at h
  split_ifs at h
  · exact handle_checkout_completed_store_eq retrieve ed db db2 h
  · exact handle_subscription_created_store_eq ed db db2 h
  · exact handle_subscription_updated_store_eq ed db db2 h
  · exact handle_subscription_deleted_store_eq ed db db2 h
  · exact handle_invoice_paid_store_eq ed db db2 h
  · exact handle_invoice_failed_store_eq ed db db2 h
  · cases h; exact ⟨rfl, rfl⟩

/-! ## C10 — success and failure outcomes are mutually exclusive -/

/-- C10: on the default-handler path, every WebhookEvent row in the
state produced by `process_event` satisfies the exclusivity invariant
(`processed` true exactly with a set `processed_at`, and never together
with a non-null `error`), provided the incoming rows already did. -/
theorem processed_error_exclusive (handlers : Handlers) (retrieve : RetrieveFn)
    (now now2 : Nat) (ev : StripeEvent) (db : DBState)
    (hwf : ∀ x ∈ db.webhook_events, x.row_id < db.next_pk)
    (hinv : ∀ x ∈ db.webhook_events, event_ok x)
    (hcustom : handlers ev.event_type = none)
    (w : WebhookEvent)
    (hw : w ∈ (process_event handlers retrieve now now2 ev db).2.webhook_events) :
    event_ok w := by
  have hne : ∀ x ∈ db.webhook_events, x.row_id ≠ db.next_pk :=
    fun x hx => Nat.ne_of_lt (hwf x hx)
  have hsplit : (received_state now ev db).webhook_events = db.webhook_events ++
      [{ row_id := db.next_pk
         stripe_event_id := ev.id
         event_type := ev.event_type
         data := ev.data
         received_at := now
         processed := false
         processed_at := none
         error := none }] := rfl
  cases hd : handle_default_event retrieve ev.event_type ev.data (received_state now ev db) with
  | ok db2 =>
    have hstep : (process_event handlers retrieve now now2 ev db).2 =
        update_event db2 db.next_pk
          (fun x => { x with processed := true, processed_at := some now2 }) := by
      simp only [process_event, dispatch, hcustom, hd]
    obtain ⟨hev, _⟩ := handle_default_event_store_eq retrieve _ _ _ _ hd
    rw [hstep] at hw
    simp only [update_event, hev, hsplit, List.map_append,
      map_update_not_mem db.webhook_events db.next_pk _ hne, List.map_cons,
      List.map_nil, if_pos rfl] at hw
    rcases List.mem_append.mp hw with hmem | hmem
    · exact hinv w hmem
    · rw [List.mem_singleton] at hmem
      subst hmem
      simp [event_ok]
  | error e =>
    have hstep : (process_event handlers retrieve now now2 ev db).2 =
        update_event (received_state now ev db) db.next_pk
          (fun x => { x with error := some e }) := by
      simp only [process_event, dispatch, hcustom, hd]
    rw [hstep] at hw
    simp only [update_event, hsplit, List.map_append,
      map_update_not_mem db.webhook_events db.next_pk _ hne, List.map_cons,
      List.map_nil, if_pos rfl] at hw
    rcases List.mem_append.mp hw with hmem | hmem
    · exact hinv w hmem
    · rw [List.mem_singleton] at hmem
      subst hmem
      simp [event_ok]

/-- Witness for C10: the single row left by a concrete successful
delivery satisfies the exclusivity invariant. -/
theorem processed_error_exclusive_witness :
    event_ok
      { row_id := 0
        stripe_event_id := "evt_1"
        event_type := "customer.subscription.deleted"
        data := sampleEvent.data
        received_at := 5
        processed := true
        processed_at := some 6
        error := none } :=
  processed_error_exclusive noHandlers noRetrieve 5 6 sampleEvent sampleDB
    (by decide) (by decide) rfl _ (by decide)

/-! ## C1 — duplicate delivery: no suppression is performed -/

/-- `update_event` never changes a row's gateway event id when the
mutation preserves it, so the per-id row count is stable. -/
theorem length_filter_map_update (l : List WebhookEvent) (pk : Nat)
    (f : WebhookEvent → WebhookEvent)
    (hf : ∀ w, (f w).stripe_event_id = w.stripe_event_id) (eid : String) :
    ((l.map (fun w => if w.row_id = pk then f w else w)).filter
        (fun w => w.stripe_event_id = eid)).length =
      (l.filter (fun w => w.stripe_event_id = eid)).length := by
  induction l with
  | nil => rfl
  | cons a t ih =>
    have hid : (if a.row_id = pk then f a else a).stripe_event_id = a.stripe_event_id := by
      split
      · exact hf a
      · rfl
    simp only [List.map_cons, List.filter_cons, hid]
    by_cases he : a.stripe_event_id = eid
    · simp [he, ih]
    · simp [he, ih]

/-- Specialisation to the database state. -/
theorem count_rows_update_event (db : DBState) (pk : Nat)
    (f : WebhookEvent → WebhookEvent)
    (hf : ∀ w, (f w).stripe_event_id = w.stripe_event_id) (eid : String) :
    count_rows (update_event db pk f) eid = count_rows db eid := by
  unfold count_rows update_event
  exact length_filter_map_update db.webhook_events pk f hf eid

/-- C1 (amended): `process_event` performs no duplicate detection — on
the default-handler path, every delivery appends exactly one more
WebhookEvent row carrying the event's gateway event id, regardless of
how many rows with that id already exist.  In particular a re-delivery
of an already-recorded id leaves two rows, so the post-state differs
from the state after the first delivery. -/
theorem redelivery_inserts_duplicate (handlers : Handlers) (retrieve : RetrieveFn)
    (now now2 : Nat) (ev : StripeEvent) (db : DBState)
    (hcustom : handlers ev.event_type = none) :
    count_rows (process_event handlers retrieve now now2 ev db).2 ev.id =
      count_rows db ev.id + 1 := by
  have hsplit : (received_state now ev db).webhook_events = db.webhook_events ++
      [{ row_id := db.next_pk
         stripe_event_id := ev.id
         event_type := ev.event_type
         data := ev.data
         received_at := now
         processed := false
         processed_at := none
         error := none }] := rfl
  cases hd : handle_default_event retrieve ev.event_type ev.data (received_state now ev db) with
  | ok db2 =>
    have hstep : (process_event handlers retrieve now now2 ev db).2 =
        update_event db2 db.next_pk
          (fun x => { x with processed := true, processed_at := some now2 }) := by
      simp only [process_event, dispatch, hcustom, hd]
    obtain ⟨hev, _⟩ := handle_default_event_store_eq retrieve _ _ _ _ hd
    rw [hstep, count_rows_update_event db2 db.next_pk
      (fun x => { x with processed := true, processed_at := some now2 })
      (fun x => rfl) ev.id]
    unfold count_rows
    rw [hev, hsplit, List.filter_append]
    simp [count_rows]
  | error e =>
    have hstep : (process_event handlers retrieve now now2 ev db).2 =
        update_event (received_state now ev db) db.next_pk
          (fun x => { x with error := some e }) := by
      simp only [process_event, dispatch, hcustom, hd]
    rw [hstep, count_rows_update_event (received_state now ev db) db.next_pk
      (fun x => { x with error := some e }) (fun x => rfl) ev.id]
    unfold count_rows
    rw [hsplit, List.filter_append]
    simp [count_rows]

/-- Witness for the amended C1: the second delivery of `evt_1` leaves
one more `evt_1` row than the first delivery did. -/
theorem redelivery_inserts_duplicate_witness :
    count_rows secondDelivery.2 "evt_1" = count_rows firstDelivery.2 "evt_1" + 1 :=
  redelivery_inserts_duplicate noHandlers noRetrieve 7 8 sampleEvent firstDelivery.2 rfl

/-- Counterexample to C1 as stated: delivering the same gateway event id
`evt_1` twice leaves two WebhookEvent rows with that id, and the final
state differs from the state after the first delivery — the invariant
"at most one row per gateway event id" does not hold. -/
theorem duplicate_delivery_creates_second_row :
    count_rows secondDelivery.2 "evt_1" = 2 ∧
    count_rows firstDelivery.2 "evt_1" = 1 ∧
    secondDelivery.2 ≠ firstDelivery.2 := by decide

end FlaskPayments
